import Mathlib

/-!
Verification development for the `controllo-file` repository.

The embedded component is the PDF structural compliance analyzer
(`src/file_checker/core/analyzer.py`, class `FileAnalyzer`).  Python
floats holding page geometry are modelled as exact rationals where the
concrete values stay far from every rounding boundary; where a claim is
about IEEE rounding itself, the double-precision semantics is modelled
explicitly by `fl` (round to nearest, ties to even).  Python strings are
Lean strings (ASCII view of the regex classes `\w`, `\d`).
The external pypdf library is modelled at its interface: a reader is an
encryption flag plus a page list, and accessing `reader.pages` on an
encrypted, non-decrypted reader raises `FileNotDecryptedError`, which we
model as an `Except.error`.  Exceptions are modelled with `Except`
throughout; the `analizza_file` boundary converts them to an error-kind
outcome exactly as the Python `try/except` does.
-/

/-- Python `str.strip` (whitespace at both ends). -/
def pyStrip (s : String) : String :=
  ((s.data.dropWhile Char.isWhitespace).reverse.dropWhile
    Char.isWhitespace).reverse.asString

/-- Python `str.lower` (ASCII model). -/
def pyLower (s : String) : String := (s.data.map Char.toLower).asString

/-- Python `str.replace` with single-character pattern and replacement:
every occurrence of `a` becomes `b`. -/
def pyReplace (s : String) (a b : Char) : String :=
  (s.data.map (fun c => if c = a then b else c)).asString

/-- Python `int(s)` on a string: optional surrounding whitespace, optional
sign, then a non-empty digit run; anything else raises `ValueError`.
Models the call `int(specs.get("pagine totali", 0))` when the declared
value is a string. -/
def pyInt (s : String) : Except String Int :=
  let t := (pyStrip s).data
  let signed : Int × List Char :=
    match t with
    | '+' :: rest => (1, rest)
    | '-' :: rest => (-1, rest)
    | l => (1, l)
  if signed.2 ≠ [] ∧ signed.2.all Char.isDigit then
    Except.ok (signed.1 * (signed.2.foldl (fun a c => a * 10 + (c.toNat - 48)) 0 : Nat))
  else
    Except.error ("invalid literal for int() with base 10: " ++ s)

/-- Round a rational to the nearest integer, ties to even: the rounding
performed by Python string formatting `f"{x:.1f}"` on the scaled value. -/
def roundHalfEven (q : ℚ) : ℤ :=
  let f := ⌊q⌋
  if q - f < 1 / 2 then f
  else if 1 / 2 < q - f then f + 1
  else if f % 2 = 0 then f else f + 1

/-- The Unit Converter formatting half: Python
`f"{x:.1f}".replace(".", ",")` — one decimal digit, comma separator. -/
def format_cm (q : ℚ) : String :=
  let n := roundHalfEven (q * 10)
  let a := n.natAbs
  (if n < 0 then "-" else "") ++ toString (a / 10) ++ "," ++ toString (a % 10)

/-- The Unit Converter conversion half: division by 28.35 points per cm
(`float(box.width) / 28.35` in the source), idealized over exact
rationals.  This idealization is faithful for the concrete geometry
facts proved below, whose values sit far from every decimal rounding
boundary; the double-precision semantics of the same line, needed where
a claim is about the rounding itself, is `points_to_cm_fp`. -/
def points_to_cm (x : ℚ) : ℚ := x / (2835 / 100)

/-- Rounding of an exact rational to the nearest IEEE-754 double (round
to nearest, ties to even), for values in the normal range: the exponent
is the floor base-2 logarithm, the value is scaled to a 53-bit
significand and rounded with ties to even.  A finite double denotes the
dyadic rational of its bits, so each float operation of the program is
`fl` applied to the exact operation. -/
def fl (q : ℚ) : ℚ :=
  if q = 0 then 0
  else
    ((roundHalfEven (q * 2 ^ (52 - Int.log 2 |q|)) : ℚ)) /
      2 ^ (52 - Int.log 2 |q|)

/-- The Unit Converter conversion half in the program's double-precision
arithmetic: the literal 28.35 is itself the nearest double, and the
quotient is rounded again. -/
def points_to_cm_fp (x : ℚ) : ℚ := fl (x / fl (2835 / 100))

/-- Python `\w` (ASCII view): letter, digit or underscore. -/
def isWordChar (c : Char) : Bool := c.isAlphanum || c == '_'

/-- Scanner for the regex `\b\d+\b` of
`re.findall(r"\b\d+\b", text)`: maximal digit runs whose neighbours (when
present) are non-word characters.  `prevWord` records whether the
previous character was a word character; `cur` holds the pending digit
run (reversed) together with the validity of its left boundary. -/
def tokensAux (prevWord : Bool) (cur : Option (List Char × Bool)) :
    List Char → List String
  | [] =>
    match cur with
    | none => []
    | some (run, lv) => if lv then [run.reverse.asString] else []
  | c :: rest =>
    match cur with
    | none =>
      if c.isDigit then tokensAux true (some ([c], !prevWord)) rest
      else tokensAux (isWordChar c) none rest
    | some (run, lv) =>
      if c.isDigit then tokensAux true (some (c :: run, lv)) rest
      else
        (if lv && !isWordChar c then [run.reverse.asString] else []) ++
          tokensAux (isWordChar c) none rest

/-- All `\b\d+\b` matches of a string, in order. -/
def numTokens (s : String) : List String := tokensAux false none s.data

/-- Python `int` on a pure digit string (as produced by the token scan). -/
def digitsToNat (s : String) : Nat :=
  s.data.foldl (fun a c => a * 10 + (c.toNat - 48)) 0

-- ---------------------------------------------------------------------
-- Data model (analyzer.py section "Data structure" plus the pypdf view)
-- ---------------------------------------------------------------------

/-- A font descriptor dictionary, reduced to its key set. -/
structure FontDescriptor where
  keys : List String
  deriving DecidableEq, Repr

/-- A font dictionary: optionally carries a `/FontDescriptor`. -/
structure PdfFont where
  descriptor : Option FontDescriptor
  deriving DecidableEq, Repr

/-- A `/ColorSpace` entry: a name, or an array whose first element is the
base color-space name. -/
inductive PdfColorSpace where
  | name (s : String)
  | arr (elems : List String)
  deriving DecidableEq, Repr

/-- An XObject: its `/Subtype` and optional `/ColorSpace`. -/
structure PdfXObject where
  subtype : String
  colorSpace : Option PdfColorSpace
  deriving DecidableEq, Repr

/-- A resources dictionary: optional `/Font` and `/XObject`
sub-dictionaries (ordered key-value lists, as pypdf iterates them). -/
structure PdfResources where
  font : Option (List (String × PdfFont))
  xobject : Option (List (String × PdfXObject))
  deriving DecidableEq, Repr

/-- A page: MediaBox width and height in points, extracted text
(`page.extract_text() or ""`), and an optional resources dictionary. -/
structure PdfPage where
  width : ℚ
  height : ℚ
  text : String
  resources : Option PdfResources
  deriving DecidableEq, Repr

/-- The pypdf reader interface used by the analyzer. -/
structure PdfReader where
  is_encrypted : Bool
  pages : List PdfPage
  deriving DecidableEq, Repr

/-- Access to `reader.pages`.  pypdf raises `FileNotDecryptedError` when
the document is encrypted and has not been decrypted; otherwise the page
sequence is returned. -/
def readerPages (r : PdfReader) : Except String (List PdfPage) :=
  if r.is_encrypted then Except.error "File has not been decrypted"
  else Except.ok r.pages

/-- dict lookup `d.get(k)` on an association list. -/
def dictGet {α : Type} (d : List (String × α)) (k : String) : Option α :=
  (d.find? (fun kv => kv.1 == k)).map (fun kv => kv.2)

instance {ε α : Type} [DecidableEq ε] [DecidableEq α] :
    DecidableEq (Except ε α) := fun a b =>
  match a, b with
  | Except.ok x, Except.ok y =>
    if h : x = y then isTrue (by rw [h])
    else isFalse (fun hc => h (Except.ok.injEq .. ▸ hc))
  | Except.ok _, Except.error _ => isFalse (fun hc => Except.noConfusion hc)
  | Except.error _, Except.ok _ => isFalse (fun hc => Except.noConfusion hc)
  | Except.error x, Except.error y =>
    if h : x = y then isTrue (by rw [h])
    else isFalse (fun hc => h (Except.error.injEq .. ▸ hc))

/-- The dataclass `AnalysisOutcome` (the `extra` free-form dict is
dropped; `None` is `Option.none`). -/
structure AnalysisOutcome where
  formato_file : String
  numero_pagine : Option Nat := none
  dimensioni : Option String := none
  spazio_colore : Option String := none
  profilo_stampa : Option String := none
  esito_pagine : Option Bool := none
  esito_formato : Option Bool := none
  esito_protezione : Option Bool := none
  esito_font_incorporati : Option Bool := none
  esito_pagine_singole : Option Bool := none
  esito_numerazione : Option Bool := none
  esito_stampa : Option Bool := none
  esito : String := "OK"
  messaggio : String := ""
  deriving DecidableEq, Repr

-- ---------------------------------------------------------------------
-- FileAnalyzer helpers (analyzer.py lines 272-355)
-- ---------------------------------------------------------------------

/-- `page.get("/Resources") or {}` then `.get("/Font") or {}`. -/
def fontsDict (p : PdfPage) : List (String × PdfFont) :=
  match p.resources with
  | none => []
  | some res => res.font.getD []

/-- `page.get("/Resources") or {}` then `.get("/XObject") or {}`. -/
def xobjDict (p : PdfPage) : List (String × PdfXObject) :=
  match p.resources with
  | none => []
  | some res => res.xobject.getD []

/-- One font of `_check_all_fonts_incorporati`: has a truthy
`/FontDescriptor` containing at least one of the three embedded
font-program slots.  (An absent descriptor fails at the `not descriptor`
test; an empty one fails the `any` test; both yield `false`.) -/
def fontEmbedded (f : PdfFont) : Bool :=
  match f.descriptor with
  | none => false
  | some d =>
    ["/FontFile", "/FontFile2", "/FontFile3"].any (fun k => d.keys.contains k)

/-- `_check_all_fonts_incorporati`: every font of every page embedded;
the internal `try/except` turns any traversal failure into `False`. -/
def check_all_fonts_incorporati (r : PdfReader) : Bool :=
  match readerPages r with
  | Except.error _ => false
  | Except.ok ps =>
    ps.all (fun p => (fontsDict p).all (fun kv => fontEmbedded kv.2))

/-- `_check_single_page`: aspect ratio (0 when the height is 0) at most
1.2. -/
def check_single_page (larg_cm alt_cm : ℚ) : Bool :=
  decide ((if alt_cm = 0 then 0 else larg_cm / alt_cm) ≤ 12 / 10)

/-- The formatted `(width, height)` pair of one page:
`f"{larg:.1f}".replace(".", ",")` on both coordinates. -/
def fmtPair (p : PdfPage) : String × String :=
  (format_cm (points_to_cm p.width), format_cm (points_to_cm p.height))

/-- `_dimensioni_impaginato`: per-page formatted pairs; the label is
`"{w}x{h} cm"` from the first pair when all pairs agree, else
`"non uniforme"`; the flag accumulates `_check_single_page` over all
pages.  `dims[0]` on an empty page list raises `IndexError`. -/
def dimensioni_impaginato (r : PdfReader) : Except String (String × Bool) :=
  match readerPages r with
  | Except.error e => Except.error e
  | Except.ok ps =>
    let dims := ps.map fmtPair
    let pagine_singole := ps.all (fun p =>
      check_single_page (points_to_cm p.width) (points_to_cm p.height))
    match dims with
    | [] => Except.error "list index out of range"
    | d0 :: _ =>
      let uniforme := dims.all (fun d => d == d0)
      Except.ok
        ((if uniforme then d0.1 ++ "x" ++ d0.2 ++ " cm" else "non uniforme"),
         pagine_singole)

/-- `_dimensioni_prima_pagina`: formatted size of `reader.pages[0]`;
`IndexError` on an empty document. -/
def dimensioni_prima_pagina (r : PdfReader) : Except String String :=
  match readerPages r with
  | Except.error e => Except.error e
  | Except.ok ps =>
    match ps with
    | [] => Except.error "list index out of range"
    | p :: _ =>
      Except.ok (format_cm (points_to_cm p.width) ++ "x" ++
        format_cm (points_to_cm p.height) ++ " cm")

/-- Per-page numbers of `_check_page_numbering_consecutive`: the last
numeric token of each page, `none` as soon as one page has no token. -/
def collectNumbering : List PdfPage → Option (List Nat)
  | [] => some []
  | p :: rest =>
    match (numTokens p.text).getLast? with
    | none => none
    | some t => (collectNumbering rest).map (fun ns => digitsToNat t :: ns)

/-- `all(b == a + 1 for a, b in zip(numbering, numbering[1:]))`. -/
def consecPairs (ns : List Nat) : Bool :=
  (ns.zip ns.tail).all (fun ab => ab.2 == ab.1 + 1)

/-- `_check_page_numbering_consecutive` on the page sequence. -/
def checkNumberingPages (ps : List PdfPage) : Bool :=
  match collectNumbering ps with
  | none => false
  | some ns => consecPairs ns

/-- `_check_page_numbering_consecutive` on the reader. -/
def check_page_numbering_consecutive (r : PdfReader) : Except String Bool :=
  match readerPages r with
  | Except.error e => Except.error e
  | Except.ok ps => Except.ok (checkNumberingPages ps)

/-- `str(cs)` after the array unwrapping in `_check_stampa_pdf`:
`str(None)` is `"None"`; `cs[0]` on an empty array raises. -/
def csEntry : Option PdfColorSpace → Except String String
  | none => Except.ok "None"
  | some (PdfColorSpace.name s) => Except.ok s
  | some (PdfColorSpace.arr []) => Except.error "list index out of range"
  | some (PdfColorSpace.arr (s :: _)) => Except.ok s

/-- `if cs: color_spaces.add(cs)` — the Python set modelled as a
duplicate-free list in insertion order. -/
def addCS (acc : List String) (s : String) : List String :=
  if s = "" then acc else if s ∈ acc then acc else acc ++ [s]

/-- Inner loop of `_check_stampa_pdf` over one page's XObjects. -/
def collectXObjs (acc : List String) :
    List (String × PdfXObject) → Except String (List String)
  | [] => Except.ok acc
  | kv :: rest =>
    if kv.2.subtype = "/Image" then
      match csEntry kv.2.colorSpace with
      | Except.error e => Except.error e
      | Except.ok s => collectXObjs (addCS acc s) rest
    else collectXObjs acc rest

/-- Outer loop of `_check_stampa_pdf` over the pages. -/
def collectPages (acc : List String) :
    List PdfPage → Except String (List String)
  | [] => Except.ok acc
  | p :: rest =>
    match collectXObjs acc (xobjDict p) with
    | Except.error e => Except.error e
    | Except.ok a => collectPages a rest

/-- `_check_stampa_pdf`: collect the color-space identifiers of all image
XObjects; empty set means black-and-white with the sentinel
`"Nessuna immagine"`; otherwise black-and-white iff every identifier is
grayscale, with the sorted comma-joined identifiers as description. -/
def check_stampa_pdf (r : PdfReader) : Except String (Bool × String) :=
  match readerPages r with
  | Except.error e => Except.error e
  | Except.ok ps =>
    match collectPages [] ps with
    | Except.error e => Except.error e
    | Except.ok css =>
      if css = [] then Except.ok (true, "Nessuna immagine")
      else
        Except.ok
          (css.all (fun cs => cs == "/DeviceGray" || cs == "/CalGray"),
           String.intercalate ", " (css.insertionSort (fun a b => a ≤ b)))

/-- `_verifica_formato`: vacuously true on an empty declared format,
otherwise string equality after mapping commas to dots on both sides. -/
def verifica_formato (attuale richiesto : String) : Bool :=
  if richiesto = "" then true
  else (pyReplace attuale ',' '.') == (pyReplace richiesto ',' '.')

-- ---------------------------------------------------------------------
-- _analizza_pdf and the analizza_file boundary (analyzer.py 119-220)
-- ---------------------------------------------------------------------

/-- Lines 186-194 of `_analizza_pdf` (the role branch): geometry,
numbering, print-mode facts as a five-tuple
`(dimensioni, pagine_singole, numerazione_ok, stampa_bw, profilo_stampa)`. -/
def geometry_step (r : PdfReader) (tipo : String) (protezione_ok : Bool) :
    Except String (String × Bool × Bool × Bool × String) :=
  if tipo = "impaginato" then
    match dimensioni_impaginato r with
    | Except.error e => Except.error e
    | Except.ok (d, sing) =>
      match (if protezione_ok then check_page_numbering_consecutive r
             else Except.ok false) with
      | Except.error e => Except.error e
      | Except.ok numerazione =>
        match check_stampa_pdf r with
        | Except.error e => Except.error e
        | Except.ok (bw, prof) => Except.ok (d, sing, numerazione, bw, prof)
  else
    match dimensioni_prima_pagina r with
    | Except.error e => Except.error e
    | Except.ok d => Except.ok (d, true, true, true, "")

/-- `int(specs.get("pagine totali", 0))`: the missing key yields the
integer default 0 directly; a present value goes through `int(...)` and
may raise `ValueError`. -/
def declared_pages (specs : List (String × String)) : Except String Int :=
  match dictGet specs "pagine totali" with
  | none => Except.ok 0
  | some s => pyInt s

/-- `_analizza_pdf`: the Compliance Reducer over an opened reader.
`specifiche` is the role-keyed specification mapping of the
`FileAnalyzer` constructor; exceptions travel as `Except.error`. -/
def analizza_pdf (specifiche : List (String × List (String × String)))
    (r : PdfReader) (tipo : String) : Except String AnalysisOutcome :=
  let protezione_ok := !r.is_encrypted
  let fonts_ok := protezione_ok && check_all_fonts_incorporati r
  match (if protezione_ok then (readerPages r).map List.length
         else Except.ok 0) with
  | Except.error e => Except.error e
  | Except.ok num_pagine =>
    match geometry_step r tipo protezione_ok with
    | Except.error e => Except.error e
    | Except.ok (dimensioni, pagine_singole, numerazione_ok, stampa_bw,
        profilo_stampa) =>
      let specs := (dictGet specifiche tipo).getD []
      let esito_formato :=
        if protezione_ok then
          verifica_formato dimensioni ((dictGet specs "formato").getD "")
        else false
      match (if protezione_ok then
              (declared_pages specs).map
                (fun dichiarate => decide ((num_pagine : Int) = dichiarate))
            else Except.ok false) with
      | Except.error e => Except.error e
      | Except.ok esito_n_pagine =>
        let expected_stampa := pyStrip (pyLower ((dictGet specs "stampa").getD ""))
        let esito_stampa :=
          if expected_stampa = "bianco e nero" then stampa_bw
          else if expected_stampa = "colori" then !stampa_bw
          else true
        Except.ok
          { formato_file := "PDF"
            numero_pagine := some num_pagine
            dimensioni := some dimensioni
            profilo_stampa := some profilo_stampa
            esito_pagine := some esito_n_pagine
            esito_formato := some esito_formato
            esito_protezione := some protezione_ok
            esito_font_incorporati := some fonts_ok
            esito_pagine_singole := some pagine_singole
            esito_numerazione := some numerazione_ok
            esito_stampa := some esito_stampa }

/-- The PDF path of `FileAnalyzer.analizza_file` after MIME dispatch:
any exception from `_analizza_pdf` becomes an error-kind outcome with
the detected MIME type, `esito = "Errore"` and the exception message. -/
def analizza_file (specifiche : List (String × List (String × String)))
    (r : PdfReader) (tipo : String) : AnalysisOutcome :=
  match analizza_pdf specifiche r tipo with
  | Except.ok o => o
  | Except.error msg =>
    { formato_file := "application/pdf", esito := "Errore", messaggio := msg }

-- ---------------------------------------------------------------------
-- Declarative (specification-side) formulations, for the theorems
-- ---------------------------------------------------------------------

/-- The printed number of a page: its last numeric token (0 when absent;
only used under the hypothesis that a token exists). -/
def pageNumber (p : PdfPage) : Nat :=
  (((numTokens p.text).getLast?).map digitsToNat).getD 0

/-- The aspect ratio of a page in cm, 0 when the height is 0. -/
def aspectRatioCm (p : PdfPage) : ℚ :=
  if points_to_cm p.height = 0 then 0
  else points_to_cm p.width / points_to_cm p.height

/-- The base color-space identifier of a `/ColorSpace` entry as a
string: `str(None)` for an absent entry, the name itself, or the first
element of an array (empty string on an empty array). -/
def csLabel : Option PdfColorSpace → String
  | none => "None"
  | some (PdfColorSpace.name s) => s
  | some (PdfColorSpace.arr l) => l.headD ""

/-- The identifier contributed by one XObject entry: images only, and
only when the identifier string is non-empty. -/
def imgLabel (kv : String × PdfXObject) : Option String :=
  if kv.2.subtype = "/Image" then
    (if csLabel kv.2.colorSpace = "" then none
     else some (csLabel kv.2.colorSpace))
  else none

/-- All color-space identifiers contributed by one page, in order, with
multiplicity. -/
def pageImageCS (p : PdfPage) : List String :=
  (xobjDict p).filterMap imgLabel

/-- One of the two grayscale identifiers. -/
def grayCS (cs : String) : Bool := cs == "/DeviceGray" || cs == "/CalGray"

-- ---------------------------------------------------------------------
-- Concrete sample inputs for witnesses and counterexamples
-- ---------------------------------------------------------------------

/-- An A4 page (MediaBox 595.27 x 841.89 points) carrying the given
extracted text and no resources. -/
def a4Page (t : String) : PdfPage :=
  { width := 59527 / 100, height := 84189 / 100, text := t, resources := none }

/-- A two-page unencrypted A4 document. -/
def twoA4 : PdfReader :=
  { is_encrypted := false, pages := [a4Page "1", a4Page "2"] }

/-- A page whose only font has no `/FontDescriptor`. -/
def badFontPage : PdfPage :=
  { width := 59527 / 100, height := 84189 / 100, text := "1",
    resources := some { font := some [("F1", { descriptor := none })],
                        xobject := none } }

-- ---------------------------------------------------------------------
-- Helper lemmas
-- ---------------------------------------------------------------------

theorem getLast?_none_iff {α : Type} (l : List α) :
    l.getLast? = none ↔ l = [] := by
  cases l <;> simp [List.getLast?]

theorem collect_append_none (pre : List PdfPage) (p : PdfPage)
    (suf : List PdfPage) (hp : (numTokens p.text).getLast? = none) :
    collectNumbering (pre ++ p :: suf) = none := by
  induction pre with
  | nil => simp [collectNumbering, hp]
  | cons q t ih =>
    simp only [List.cons_append, collectNumbering]
    cases hq : (numTokens q.text).getLast? with
    | none => simp
    | some v => simp [ih]

theorem collect_all_some (pages : List PdfPage)
    (h : ∀ p ∈ pages, numTokens p.text ≠ []) :
    collectNumbering pages = some (pages.map pageNumber) := by
  induction pages with
  | nil => rfl
  | cons p t ih =>
    have hp := h p (List.mem_cons_self p t)
    obtain ⟨v, hv⟩ : ∃ v, (numTokens p.text).getLast? = some v := by
      cases hcase : (numTokens p.text).getLast? with
      | none => exact absurd ((getLast?_none_iff _).mp hcase) hp
      | some v => exact ⟨v, rfl⟩
    simp only [collectNumbering, hv, List.map_cons]
    rw [ih (fun q hq => h q (List.mem_cons_of_mem _ hq))]
    simp [pageNumber, hv]

theorem consec_iff (ns : List Nat) :
    consecPairs ns = true ↔ List.Chain' (fun a b => b = a + 1) ns := by
  induction ns with
  | nil => simp [consecPairs]
  | cons a t ih =>
    cases t with
    | nil => simp [consecPairs]
    | cons b t2 =>
      have h1 : consecPairs (a :: b :: t2) =
          ((b == a + 1) && consecPairs (b :: t2)) := rfl
      rw [h1, Bool.and_eq_true, beq_iff_eq, List.chain'_cons, ih]

-- Concrete geometry evaluations (rational arithmetic is settled by
-- norm_num; the remaining string assembly reduces definitionally).

theorem rhe_a4_w : roundHalfEven (points_to_cm ((59527 : ℚ) / 100) * 10) = 210 := by
  have hq : points_to_cm ((59527 : ℚ) / 100) * 10 = 119054 / 567 := by
    norm_num [points_to_cm]
  have hf : ⌊(119054 : ℚ) / 567⌋ = 209 := by norm_num
  simp only [roundHalfEven, hq, hf]
  norm_num

theorem rhe_a4_h : roundHalfEven (points_to_cm ((84189 : ℚ) / 100) * 10) = 297 := by
  have hq : points_to_cm ((84189 : ℚ) / 100) * 10 = 168378 / 567 := by
    norm_num [points_to_cm]
  have hf : ⌊(168378 : ℚ) / 567⌋ = 296 := by norm_num
  simp only [roundHalfEven, hq, hf]
  norm_num

theorem fmt_a4_w : format_cm (points_to_cm ((59527 : ℚ) / 100)) = "21,0" := by
  simp only [format_cm, rhe_a4_w]
  rfl

theorem fmt_a4_h : format_cm (points_to_cm ((84189 : ℚ) / 100)) = "29,7" := by
  simp only [format_cm, rhe_a4_h]
  rfl

theorem fmtPair_a4 (t : String) : fmtPair (a4Page t) = ("21,0", "29,7") := by
  simp only [fmtPair, a4Page]
  rw [fmt_a4_w, fmt_a4_h]

theorem aspect_a4 (t : String) : aspectRatioCm (a4Page t) ≤ 12 / 10 := by
  norm_num [aspectRatioCm, points_to_cm, a4Page]

theorem single_a4 (t : String) :
    check_single_page (points_to_cm (a4Page t).width)
      (points_to_cm (a4Page t).height) = true := by
  simp only [check_single_page, decide_eq_true_eq]
  norm_num [points_to_cm, a4Page]

theorem dims_a4_single (t : String) :
    dimensioni_impaginato { is_encrypted := false, pages := [a4Page t] } =
      Except.ok ("21,0x29,7 cm", true) := by
  simp [dimensioni_impaginato, readerPages, fmtPair_a4, single_a4]

theorem numbering_a4_1 :
    check_page_numbering_consecutive
      { is_encrypted := false, pages := [a4Page "1"] } = Except.ok true := by
  rfl

theorem stampa_a4_1 :
    check_stampa_pdf { is_encrypted := false, pages := [a4Page "1"] } =
      Except.ok (true, "Nessuna immagine") := by
  rfl

theorem geom_a4_1 :
    geometry_step { is_encrypted := false, pages := [a4Page "1"] }
        "impaginato" true =
      Except.ok ("21,0x29,7 cm", true, true, true, "Nessuna immagine") := by
  simp [geometry_step, dims_a4_single, numbering_a4_1, stampa_a4_1]

-- ---------------------------------------------------------------------
-- Claim theorems
-- ---------------------------------------------------------------------

/-- C3: the numbering check takes the last numeric token of each page as
that page printed number, returns false whenever some page has no
numeric token regardless of the remaining pages, and otherwise returns
true exactly when every pair of consecutive per-page numbers differs by
exactly +1. -/
theorem c3_numbering_is_consecutive (pages : List PdfPage) :
    (∀ pre p suf, pages = pre ++ p :: suf → numTokens p.text = [] →
        checkNumberingPages pages = false) ∧
    ((∀ p ∈ pages, numTokens p.text ≠ []) →
        (checkNumberingPages pages = true ↔
          List.Chain' (fun a b => b = a + 1) (pages.map pageNumber))) := by
  constructor
  · intro pre p suf hsplit hp
    have hnone : (numTokens p.text).getLast? = none := by
      rw [getLast?_none_iff]; exact hp
    rw [hsplit]
    simp [checkNumberingPages, collect_append_none pre p suf hnone]
  · intro h
    simp only [checkNumberingPages, collect_all_some pages h]
    exact consec_iff _

/-- Witness for C3 at two concrete documents: a token-less second page
fails whatever follows; pages numbered 1, 2 pass. -/
theorem c3_numbering_is_consecutive_witness :
    checkNumberingPages [a4Page "1", a4Page "senza numero"] = false ∧
    checkNumberingPages [a4Page "1", a4Page "2"] = true := by
  constructor
  · exact (c3_numbering_is_consecutive _).1 [a4Page "1"]
      (a4Page "senza numero") [] rfl (by rfl)
  · refine ((c3_numbering_is_consecutive _).2 ?_).mpr ?_
    · intro p hp
      simp only [List.mem_cons, List.not_mem_nil, or_false] at hp
      rcases hp with h | h <;> subst h <;> decide
    · have hmap : List.map pageNumber [a4Page "1", a4Page "2"] = [1, 2] := by
        rfl
      rw [hmap]
      simp [List.chain'_cons]

/-- C4 counterexample: a single page with no numeric token makes the
numbering check return false, where the claim predicts a trivial pass. -/
theorem c4_single_page_cex :
    checkNumberingPages [a4Page "Pagina senza numero"] = false := by rfl

/-- C4 (amended): the empty document passes trivially; a single-page
document passes exactly when its page has at least one numeric token,
and fails when it has none. -/
theorem c4_single_page_amended :
    checkNumberingPages [] = true ∧
    ∀ p : PdfPage,
      (checkNumberingPages [p] = true ↔ numTokens p.text ≠ []) := by
  refine ⟨rfl, fun p => ?_⟩
  cases hcase : (numTokens p.text).getLast? with
  | none =>
    have h0 : numTokens p.text = [] := (getLast?_none_iff _).mp hcase
    simp [checkNumberingPages, collectNumbering, hcase, h0]
  | some v =>
    have h1 : numTokens p.text ≠ [] := by
      intro h0; rw [h0] at hcase; cases hcase
    simp [checkNumberingPages, collectNumbering, hcase, consecPairs, h1]

/-- Witness for C4 (amended) at a concrete single page carrying the
token "7". -/
theorem c4_single_page_amended_witness :
    checkNumberingPages [a4Page "7"] = true :=
  (c4_single_page_amended.2 (a4Page "7")).mpr (by decide)

theorem fl_of_bounds (q : ℚ) (e s m : ℤ) (hq : 0 < q)
    (hlo : (2 : ℚ) ^ e ≤ q) (hhi : q < (2 : ℚ) ^ (e + 1)) (hs : s = 52 - e)
    (hm : roundHalfEven (q * 2 ^ s) = m) :
    fl q = (m : ℚ) / 2 ^ s := by
  subst hs
  have hne : q ≠ 0 := ne_of_gt hq
  have habs : |q| = q := abs_of_pos hq
  have h1 : e ≤ Int.log 2 q := by
    rw [← Int.zpow_le_iff_le_log (by norm_num) hq]
    exact_mod_cast hlo
  have h2 : Int.log 2 q < e + 1 := by
    rw [← Int.lt_zpow_iff_log_lt (by norm_num) hq]
    exact_mod_cast hhi
  have hlog : Int.log 2 q = e := by omega
  simp only [fl, if_neg hne, habs, hlog, hm]

-- The double-precision trace of the C9 round trip at w = 9.55, step by
-- step: the significands below agree bit for bit with the CPython
-- doubles 9.55, 28.35, 9.55*28.35, and (9.55*28.35)/28.35.

theorem rhe_fl_c :
    roundHalfEven ((2835 / 100 : ℚ) * 2 ^ (48 : ℤ)) = 7979815589747098 := by
  have hq : (2835 / 100 : ℚ) * 2 ^ (48 : ℤ) = 39899077948735488 / 5 := by
    norm_num
  have hf : ⌊(39899077948735488 : ℚ) / 5⌋ = 7979815589747097 := by norm_num
  simp only [roundHalfEven, hq, hf]
  norm_num

theorem rhe_fl_w :
    roundHalfEven ((955 / 100 : ℚ) * 2 ^ (49 : ℤ)) = 5376172055173530 := by
  have hq : (955 / 100 : ℚ) * 2 ^ (49 : ℤ) = 26880860275867648 / 5 := by
    norm_num
  have hf : ⌊(26880860275867648 : ℚ) / 5⌋ = 5376172055173529 := by norm_num
  simp only [roundHalfEven, hq, hf]
  norm_num

theorem rhe_fl_y :
    roundHalfEven (((5376172055173530 : ℚ) / 2 ^ (49 : ℤ) *
        ((7979815589747098 : ℚ) / 2 ^ (48 : ℤ))) * 2 ^ (44 : ℤ)) =
      4762952430130299 := by
  have hq : ((5376172055173530 : ℚ) / 2 ^ (49 : ℤ) *
      ((7979815589747098 : ℚ) / 2 ^ (48 : ℤ))) * 2 ^ (44 : ℤ) =
      10725215394759107546058800978985 / 2251799813685248 := by norm_num
  have hf : ⌊(10725215394759107546058800978985 : ℚ) / 2251799813685248⌋ =
      4762952430130299 := by norm_num
  simp only [roundHalfEven, hq, hf]
  norm_num

theorem rhe_fl_z :
    roundHalfEven (((4762952430130299 : ℚ) / 2 ^ (44 : ℤ) /
        ((7979815589747098 : ℚ) / 2 ^ (48 : ℤ))) * 2 ^ (49 : ℤ)) =
      5376172055173529 := by
  have hq : ((4762952430130299 : ℚ) / 2 ^ (44 : ℤ) /
      ((7979815589747098 : ℚ) / 2 ^ (48 : ℤ))) * 2 ^ (49 : ℤ) =
      21450430789518212961352028258304 / 3989907794873549 := by norm_num
  have hf : ⌊(21450430789518212961352028258304 : ℚ) / 3989907794873549⌋ =
      5376172055173529 := by norm_num
  simp only [roundHalfEven, hq, hf]
  norm_num

theorem rhe_fmt_z :
    roundHalfEven ((5376172055173529 : ℚ) / 2 ^ (49 : ℤ) * 10) = 95 := by
  have hq : (5376172055173529 : ℚ) / 2 ^ (49 : ℤ) * 10 =
      26880860275867645 / 281474976710656 := by norm_num
  have hf : ⌊(26880860275867645 : ℚ) / 281474976710656⌋ = 95 := by norm_num
  simp only [roundHalfEven, hq, hf]
  norm_num

theorem rhe_fmt_w :
    roundHalfEven ((5376172055173530 : ℚ) / 2 ^ (49 : ℤ) * 10) = 96 := by
  have hq : (5376172055173530 : ℚ) / 2 ^ (49 : ℤ) * 10 =
      13440430137933825 / 140737488355328 := by norm_num
  have hf : ⌊(13440430137933825 : ℚ) / 140737488355328⌋ = 95 := by norm_num
  simp only [roundHalfEven, hq, hf]
  norm_num

theorem fl_c : fl (2835 / 100) = (7979815589747098 : ℚ) / 2 ^ (48 : ℤ) :=
  fl_of_bounds _ 4 48 _ (by norm_num) (by norm_num) (by norm_num)
    (by norm_num) rhe_fl_c

theorem fl_w : fl (955 / 100) = (5376172055173530 : ℚ) / 2 ^ (49 : ℤ) :=
  fl_of_bounds _ 3 49 _ (by norm_num) (by norm_num) (by norm_num)
    (by norm_num) rhe_fl_w

theorem fl_y : fl ((5376172055173530 : ℚ) / 2 ^ (49 : ℤ) *
      ((7979815589747098 : ℚ) / 2 ^ (48 : ℤ))) =
    (4762952430130299 : ℚ) / 2 ^ (44 : ℤ) :=
  fl_of_bounds _ 8 44 _ (by norm_num) (by norm_num) (by norm_num)
    (by norm_num) rhe_fl_y

theorem fl_z : fl ((4762952430130299 : ℚ) / 2 ^ (44 : ℤ) /
      ((7979815589747098 : ℚ) / 2 ^ (48 : ℤ))) =
    (5376172055173529 : ℚ) / 2 ^ (49 : ℤ) :=
  fl_of_bounds _ 3 49 _ (by norm_num) (by norm_num) (by norm_num)
    (by norm_num) rhe_fl_z

theorem fmt_z : format_cm ((5376172055173529 : ℚ) / 2 ^ (49 : ℤ)) = "9,5" := by
  simp only [format_cm, rhe_fmt_z]
  rfl

theorem fmt_w955 : format_cm ((5376172055173530 : ℚ) / 2 ^ (49 : ℤ)) = "9,6" := by
  simp only [format_cm, rhe_fmt_w]
  rfl

theorem roundtrip_955 :
    format_cm (points_to_cm_fp (fl (fl (955 / 100) * fl (2835 / 100)))) =
      "9,5" := by
  simp only [points_to_cm_fp]
  rw [fl_w, fl_c, fl_y, fl_z, fmt_z]

theorem direct_955 : format_cm (fl (955 / 100)) = "9,6" := by
  rw [fl_w, fmt_w955]

/-- C9 counterexample: under the program's IEEE double-precision
arithmetic the round trip is not stable.  At w = 9.55 (a positive page
dimension), converting w*28.35 points back to centimeters and formatting
yields "9,5" while formatting w directly yields "9,6": the two float
rounding errors push the value across the 9.55 decimal boundary.  Every
double in the trace matches CPython bit for bit. -/
theorem c9_format_roundtrip_cex :
    0 < fl (955 / 100) ∧
    format_cm (points_to_cm_fp (fl (fl (955 / 100) * fl (2835 / 100)))) ≠
      format_cm (fl (955 / 100)) := by
  constructor
  · rw [fl_w]
    norm_num
  · rw [roundtrip_955, direct_955]
    decide

/-- C9 (amended): the round-trip stability fails under the program's
double-precision float arithmetic — at w = 9.55 the round trip formats
to "9,5" against a direct "9,6" — and holds only under exact rational
arithmetic, where (w * 28.35) / 28.35 = w for every w, h > 0. -/
theorem c9_format_roundtrip_amended :
    (format_cm (points_to_cm_fp (fl (fl (955 / 100) * fl (2835 / 100)))) =
        "9,5" ∧
      format_cm (fl (955 / 100)) = "9,6") ∧
    (∀ w h : ℚ, 0 < w → 0 < h →
      format_cm (points_to_cm (w * (2835 / 100))) = format_cm w) := by
  refine ⟨⟨roundtrip_955, direct_955⟩, ?_⟩
  intro w h hw hh
  have hc : ((2835 : ℚ) / 100) ≠ 0 := by norm_num
  have hval : points_to_cm (w * (2835 / 100)) = w := by
    rw [points_to_cm, mul_div_cancel_right₀ _ hc]
  rw [hval]

/-- Witness for C9 (amended) at w = 21 cm, h = 29.7 cm for the exact
arithmetic half. -/
theorem c9_format_roundtrip_amended_witness :
    (0 : ℚ) < 21 ∧ (0 : ℚ) < 297 / 10 ∧
    format_cm (points_to_cm (21 * (2835 / 100))) = format_cm 21 :=
  ⟨by norm_num, by norm_num,
    c9_format_roundtrip_amended.2 21 (297 / 10) (by norm_num) (by norm_num)⟩

/-- C10: an unencrypted PDF with zero pages yields an error-kind outcome
(esito "Errore", every check boolean absent), because the geometry
computation unconditionally indexes the first page. -/
theorem c10_zero_pages_error
    (specifiche : List (String × List (String × String))) (tipo : String)
    (r : PdfReader) (he : r.is_encrypted = false) (hp : r.pages = []) :
    analizza_file specifiche r tipo =
      { formato_file := "application/pdf", esito := "Errore",
        messaggio := "list index out of range" } := by
  have hgeo : geometry_step r tipo true =
      Except.error "list index out of range" := by
    by_cases ht : tipo = "impaginato"
    · simp [geometry_step, ht, dimensioni_impaginato, readerPages, he, hp]
    · simp [geometry_step, ht, dimensioni_prima_pagina, readerPages, he, hp]
  simp [analizza_file, analizza_pdf, readerPages, he, hp, hgeo, Except.map]

/-- Witness for C10 at the concrete empty unencrypted document. -/
theorem c10_zero_pages_error_witness :
    analizza_file [] { is_encrypted := false, pages := [] } "impaginato" =
      { formato_file := "application/pdf", esito := "Errore",
        messaggio := "list index out of range" } :=
  c10_zero_pages_error [] "impaginato" _ rfl rfl

/-- C1: contrary to the claim, an encrypted PDF does not produce a
normal outcome with page count 0 and size "0x0 cm": the geometry step
still iterates `reader.pages`, which raises on an encrypted reader, and
`analizza_file` converts the exception to an error-kind outcome with
every check boolean absent (the string "0x0 cm" is never produced). -/
theorem c1_encrypted_pdf_error_outcome :
    analizza_file [("impaginato", [("pagine totali", "10")])]
        { is_encrypted := true, pages := [a4Page "1"] } "impaginato" =
      { formato_file := "application/pdf", esito := "Errore",
        messaggio := "File has not been decrypted" } := by rfl

/-- C2 counterexample: the computed size label carries a " cm" suffix,
so the single-page A4 interior against the declared format "21,0x29,7"
yields esito_formato false, not true as claimed. -/
theorem c2_formato_cex :
    (analizza_file [("impaginato",
        [("formato", "21,0x29,7"), ("pagine totali", "1"),
         ("stampa", "bianco e nero")])]
      { is_encrypted := false, pages := [a4Page "1"] }
      "impaginato").esito_formato = some false := by
  simp only [analizza_file, analizza_pdf, Bool.not_false, if_true,
    geom_a4_1, readerPages, Except.map]
  decide

theorem all_single_eq_decide (l : List PdfPage) :
    (l.all fun p =>
        check_single_page (points_to_cm p.width) (points_to_cm p.height)) =
      decide (∀ p ∈ l, aspectRatioCm p ≤ 12 / 10) := by
  induction l with
  | nil => rfl
  | cons a t ih =>
    rw [List.all_cons, ih]
    have h1 : check_single_page (points_to_cm a.width) (points_to_cm a.height) =
        decide (aspectRatioCm a ≤ 12 / 10) := rfl
    rw [h1]
    simp [List.forall_mem_cons]

theorem all_fmt_true (p0 : PdfPage) (l : List PdfPage)
    (hall : ∀ p ∈ p0 :: l, fmtPair p = fmtPair p0) :
    ((fmtPair p0 :: l.map fmtPair).all (fun d => d == fmtPair p0)) = true := by
  rw [List.all_eq_true]
  intro d hd
  rw [List.mem_cons, List.mem_map] at hd
  rcases hd with rfl | ⟨p, hp, rfl⟩
  · simp
  · rw [beq_iff_eq]
    exact hall p (List.mem_cons_of_mem _ hp)

theorem all_fmt_false (p0 : PdfPage) (l : List PdfPage)
    (hall : ¬ ∀ p ∈ p0 :: l, fmtPair p = fmtPair p0) :
    ((fmtPair p0 :: l.map fmtPair).all (fun d => d == fmtPair p0)) = false := by
  cases hb : (fmtPair p0 :: l.map fmtPair).all (fun d => d == fmtPair p0)
  · rfl
  · exfalso
    apply hall
    rw [List.all_eq_true] at hb
    intro p hp
    rcases List.mem_cons.mp hp with rfl | hp2
    · rfl
    · have := hb (fmtPair p) (by
        rw [List.mem_cons, List.mem_map]
        exact Or.inr ⟨p, hp2, rfl⟩)
      rwa [beq_iff_eq] at this

/-- C6: for a non-empty interior document, `_dimensioni_impaginato`
returns the label built from page 1's formatted pair when every page's
formatted pair is textually identical and "non uniforme" otherwise, and
the all-single flag holds exactly when every page's aspect ratio (0 when
the height is 0) is at most 1.2. -/
theorem c6_uniform_size (r : PdfReader) (p0 : PdfPage) (rest : List PdfPage)
    (he : r.is_encrypted = false) (hps : r.pages = p0 :: rest) :
    dimensioni_impaginato r = Except.ok
      ((if ∀ p ∈ r.pages, fmtPair p = fmtPair p0 then
          (fmtPair p0).1 ++ "x" ++ (fmtPair p0).2 ++ " cm"
        else "non uniforme"),
       decide (∀ p ∈ r.pages, aspectRatioCm p ≤ 12 / 10)) := by
  have hrp : readerPages r = Except.ok (p0 :: rest) := by
    simp [readerPages, he, hps]
  simp only [dimensioni_impaginato, hrp, hps, List.map_cons]
  rw [all_single_eq_decide]
  by_cases hall : ∀ p ∈ p0 :: rest, fmtPair p = fmtPair p0
  · rw [if_pos (all_fmt_true p0 rest hall), if_pos hall]
  · rw [if_neg (Bool.eq_false_iff.mp (all_fmt_false p0 rest hall)),
      if_neg hall]

/-- Witness for C6 at a concrete two-page A4 document. -/
theorem c6_uniform_size_witness :
    dimensioni_impaginato twoA4 = Except.ok ("21,0x29,7 cm", true) := by
  have h := c6_uniform_size twoA4 (a4Page "1") [a4Page "2"] rfl rfl
  rw [h]
  have hcond : ∀ p ∈ twoA4.pages, fmtPair p = fmtPair (a4Page "1") := by
    intro p hp
    simp only [twoA4, List.mem_cons, List.not_mem_nil, or_false] at hp
    rcases hp with rfl | rfl <;> simp [fmtPair_a4]
  have hasp : decide (∀ p ∈ twoA4.pages, aspectRatioCm p ≤ 12 / 10) = true := by
    apply decide_eq_true
    intro p hp
    simp only [twoA4, List.mem_cons, List.not_mem_nil, or_false] at hp
    rcases hp with rfl | rfl <;> exact aspect_a4 _
  rw [if_pos hcond, hasp, fmtPair_a4]
  rfl

/-- C7: the font-embedding check is true on a document with no font
resources anywhere (absent Resources or Font entries contribute no
failure), and false as soon as any referenced font lacks a descriptor or
its descriptor lacks all three embedded font-program slots. -/
theorem c7_all_fonts_embedded (r : PdfReader) (he : r.is_encrypted = false) :
    ((∀ p ∈ r.pages, fontsDict p = []) →
        check_all_fonts_incorporati r = true) ∧
    (∀ p ∈ r.pages, ∀ kv ∈ fontsDict p, fontEmbedded kv.2 = false →
        check_all_fonts_incorporati r = false) := by
  have hrp : readerPages r = Except.ok r.pages := by simp [readerPages, he]
  constructor
  · intro h
    simp only [check_all_fonts_incorporati, hrp]
    rw [List.all_eq_true]
    intro p hp
    rw [h p hp]
    rfl
  · intro p hp kv hkv hbad
    simp only [check_all_fonts_incorporati, hrp]
    rw [Bool.eq_false_iff]
    intro hall
    rw [List.all_eq_true] at hall
    have h2 := hall p hp
    simp only [List.all_eq_true] at h2
    have h3 := h2 kv hkv
    rw [hbad] at h3
    exact Bool.false_ne_true h3

/-- Witness for C7: a document whose page has no resources passes; a
document whose page has a descriptor-less font fails. -/
theorem c7_all_fonts_embedded_witness :
    check_all_fonts_incorporati
        { is_encrypted := false, pages := [a4Page ""] } = true ∧
    check_all_fonts_incorporati
        { is_encrypted := false, pages := [badFontPage] } = false := by
  constructor
  · refine (c7_all_fonts_embedded _ rfl).1 ?_
    intro p hp
    simp only [List.mem_cons, List.not_mem_nil, or_false] at hp
    subst hp
    rfl
  · exact (c7_all_fonts_embedded _ rfl).2 badFontPage (by simp)
      ("F1", { descriptor := none }) (by simp [fontsDict, badFontPage]) rfl

/-- C5 counterexample: a present but unparsable "pagine totali" value is
not treated as 0; `int("dieci")` raises ValueError and the outcome is
error-kind with esito_pagine absent. -/
theorem c5_pagine_cex :
    analizza_file [("impaginato", [("pagine totali", "dieci")])]
        { is_encrypted := false, pages := [a4Page "1"] } "impaginato" =
      { formato_file := "application/pdf", esito := "Errore",
        messaggio := "invalid literal for int() with base 10: dieci" } := by
  rfl

theorem addCS_nodup (acc : List String) (s : String) (h : acc.Nodup) :
    (addCS acc s).Nodup := by
  unfold addCS
  split_ifs with h1 h2
  · exact h
  · exact h
  · rw [List.nodup_append]
    exact ⟨h, List.nodup_singleton s, by
      intro a ha hs
      rw [List.mem_singleton] at hs
      subst hs
      exact h2 ha⟩

theorem addCS_mem (acc : List String) (s x : String) :
    x ∈ addCS acc s ↔ x ∈ acc ∨ (s ≠ "" ∧ x = s) := by
  unfold addCS
  split_ifs with h1 h2
  · simp [h1]
  · constructor
    · exact Or.inl
    · rintro (h | ⟨-, rfl⟩)
      · exact h
      · exact h2
  · simp [List.mem_append, h1]

theorem collectXObjs_ok :
    ∀ (l : List (String × PdfXObject)) (acc : List String),
      (∀ kv ∈ l, kv.2.colorSpace ≠ some (PdfColorSpace.arr [])) →
      acc.Nodup →
      ∃ out, collectXObjs acc l = Except.ok out ∧ out.Nodup ∧
        (∀ x, x ∈ out ↔ x ∈ acc ∨ x ∈ l.filterMap imgLabel) := by
  intro l
  induction l with
  | nil =>
    intro acc hl hacc
    exact ⟨acc, rfl, hacc, by simp⟩
  | cons kv rest ih =>
    intro acc hl hacc
    have hkv := hl kv (List.mem_cons_self _ _)
    have hrest : ∀ kv2 ∈ rest, kv2.2.colorSpace ≠ some (PdfColorSpace.arr []) :=
      fun kv2 h2 => hl kv2 (List.mem_cons_of_mem _ h2)
    by_cases himg : kv.2.subtype = "/Image"
    · have hcs : csEntry kv.2.colorSpace =
          Except.ok (csLabel kv.2.colorSpace) := by
        cases hc : kv.2.colorSpace with
        | none => rfl
        | some cs =>
          cases cs with
          | name s => rfl
          | arr el =>
            cases el with
            | nil => exact absurd hc hkv
            | cons a t => rfl
      obtain ⟨out, ho, hn, hm⟩ :=
        ih (addCS acc (csLabel kv.2.colorSpace)) hrest (addCS_nodup _ _ hacc)
      refine ⟨out, ?_, hn, ?_⟩
      · simp only [collectXObjs, if_pos himg, hcs]
        exact ho
      · intro x
        rw [hm x, addCS_mem]
        by_cases hempty : csLabel kv.2.colorSpace = ""
        · simp [List.filterMap_cons, imgLabel, himg, hempty]
        · simp only [List.filterMap_cons, imgLabel, if_pos himg,
            if_neg hempty, List.mem_cons]
          constructor
          · rintro ((h | ⟨-, rfl⟩) | h)
            · exact Or.inl h
            · exact Or.inr (Or.inl rfl)
            · exact Or.inr (Or.inr h)
          · rintro (h | rfl | h)
            · exact Or.inl (Or.inl h)
            · exact Or.inl (Or.inr ⟨hempty, rfl⟩)
            · exact Or.inr h
    · obtain ⟨out, ho, hn, hm⟩ := ih acc hrest hacc
      refine ⟨out, ?_, hn, ?_⟩
      · simp only [collectXObjs, if_neg himg]
        exact ho
      · intro x
        rw [hm x]
        simp [List.filterMap_cons, imgLabel, himg]

theorem collectPages_ok :
    ∀ (ps : List PdfPage) (acc : List String),
      (∀ p ∈ ps, ∀ kv ∈ xobjDict p,
          kv.2.colorSpace ≠ some (PdfColorSpace.arr [])) →
      acc.Nodup →
      ∃ out, collectPages acc ps = Except.ok out ∧ out.Nodup ∧
        (∀ x, x ∈ out ↔ x ∈ acc ∨ x ∈ ps.flatMap pageImageCS) := by
  intro ps
  induction ps with
  | nil =>
    intro acc h hacc
    exact ⟨acc, rfl, hacc, by simp⟩
  | cons p rest ih =>
    intro acc h hacc
    obtain ⟨mid, hmid, hmn, hmm⟩ :=
      collectXObjs_ok (xobjDict p) acc (h p (List.mem_cons_self _ _)) hacc
    obtain ⟨out, ho, hon, hom⟩ :=
      ih mid (fun q hq => h q (List.mem_cons_of_mem _ hq)) hmn
    refine ⟨out, ?_, hon, ?_⟩
    · simp only [collectPages, hmid]
      exact ho
    · intro x
      rw [hom x, hmm x]
      simp only [List.flatMap_cons, List.mem_append, pageImageCS]
      tauto

theorem list_all_ext {α : Type} (l1 l2 : List α) (f : α → Bool)
    (h : ∀ x, x ∈ l1 ↔ x ∈ l2) : l1.all f = l2.all f := by
  cases h1 : l1.all f <;> cases h2 : l2.all f
  · rfl
  · rw [List.all_eq_true] at h2
    have h3 : l1.all f = true :=
      List.all_eq_true.mpr (fun x hx => h2 x ((h x).mp hx))
    rw [h1] at h3
    exact absurd h3 (by simp)
  · rw [List.all_eq_true] at h1
    have h3 : l2.all f = true :=
      List.all_eq_true.mpr (fun x hx => h1 x ((h x).mpr hx))
    rw [h2] at h3
    exact absurd h3 (by simp)
  · rfl

/-- C8: the print-mode classifier collects the base color-space
identifier of every image XObject (first element of an array entry),
reports black-and-white with the sentinel "Nessuna immagine" when no
identifier is collected, and otherwise is black-and-white exactly when
every identifier is grayscale, with the sorted comma-joined distinct
identifiers as the profile description. -/
theorem c8_classify_print_mode (r : PdfReader) (he : r.is_encrypted = false)
    (hcs : ∀ p ∈ r.pages, ∀ kv ∈ xobjDict p,
        kv.2.colorSpace ≠ some (PdfColorSpace.arr [])) :
    check_stampa_pdf r = Except.ok
      (if r.pages.flatMap pageImageCS = [] then (true, "Nessuna immagine")
       else ((r.pages.flatMap pageImageCS).all grayCS,
         String.intercalate ", "
           (((r.pages.flatMap pageImageCS).dedup).insertionSort
             (fun a b => a ≤ b)))) := by
  have hrp : readerPages r = Except.ok r.pages := by simp [readerPages, he]
  obtain ⟨css, hco, hnd, hmem⟩ :=
    collectPages_ok r.pages [] hcs List.nodup_nil
  have hmem2 : ∀ x, x ∈ css ↔ x ∈ r.pages.flatMap pageImageCS := by
    intro x
    rw [hmem x]
    simp
  simp only [check_stampa_pdf, hrp, hco]
  by_cases hempty : r.pages.flatMap pageImageCS = []
  · have hcssnil : css = [] := by
      rw [List.eq_nil_iff_forall_not_mem]
      intro x hx
      have := (hmem2 x).mp hx
      rw [hempty] at this
      exact List.not_mem_nil x this
    rw [if_pos hcssnil, if_pos hempty]
  · have hcssne : ¬ css = [] := by
      intro h0
      apply hempty
      rw [List.eq_nil_iff_forall_not_mem]
      intro x hx
      have := (hmem2 x).mpr hx
      rw [h0] at this
      exact List.not_mem_nil x this
    rw [if_neg hcssne, if_neg hempty]
    have hall : (css.all fun cs => cs == "/DeviceGray" || cs == "/CalGray") =
        (r.pages.flatMap pageImageCS).all grayCS :=
      list_all_ext css (r.pages.flatMap pageImageCS) grayCS hmem2
    have hperm : List.Perm css ((r.pages.flatMap pageImageCS).dedup) := by
      rw [List.perm_ext_iff_of_nodup hnd (List.nodup_dedup _)]
      intro a
      rw [hmem2 a, List.mem_dedup]
    haveI hAS : IsAntisymm String (fun a b : String => a ≤ b) :=
      ⟨fun a b => le_antisymm⟩
    haveI hTO : IsTotal String (fun a b : String => a ≤ b) := ⟨le_total⟩
    haveI hTR : IsTrans String (fun a b : String => a ≤ b) :=
      ⟨fun a b c => le_trans⟩
    have hs1 : List.Sorted (fun a b : String => a ≤ b)
        (css.insertionSort (fun a b => a ≤ b)) :=
      List.sorted_insertionSort _ _
    have hs2 : List.Sorted (fun a b : String => a ≤ b)
        (((r.pages.flatMap pageImageCS).dedup).insertionSort
          (fun a b => a ≤ b)) :=
      List.sorted_insertionSort _ _
    have hp2 : List.Perm (css.insertionSort (fun a b => a ≤ b))
        (((r.pages.flatMap pageImageCS).dedup).insertionSort
          (fun a b => a ≤ b)) :=
      (List.perm_insertionSort _ _).trans
        (hperm.trans (List.perm_insertionSort _ _).symm)
    have hsort : css.insertionSort (fun a b => a ≤ b) =
        ((r.pages.flatMap pageImageCS).dedup).insertionSort (fun a b => a ≤ b) :=
      List.eq_of_perm_of_sorted hp2 hs1 hs2
    rw [hall, hsort]

/-- Witness for C8 at a concrete document with no image XObjects. -/
theorem c8_classify_print_mode_witness :
    check_stampa_pdf { is_encrypted := false, pages := [a4Page "1"] } =
      Except.ok (true, "Nessuna immagine") := by
  have h := c8_classify_print_mode
    { is_encrypted := false, pages := [a4Page "1"] } rfl (by
      intro p hp kv hkv
      simp only [List.mem_cons, List.not_mem_nil, or_false] at hp
      subst hp
      simp [xobjDict, a4Page] at hkv)
  rw [h]
  have hnil : ({ is_encrypted := false, pages := [a4Page "1"] } :
      PdfReader).pages.flatMap pageImageCS = ([] : List String) := rfl
  rw [if_pos hnil]

theorem analizza_pdf_cases (specifiche : List (String × List (String × String)))
    (r : PdfReader) (tipo : String) (he : r.is_encrypted = false) :
    (∃ e, analizza_pdf specifiche r tipo = Except.error e) ∨
    (∃ d sing numz bw prof dich,
      geometry_step r tipo true = Except.ok (d, sing, numz, bw, prof) ∧
      declared_pages ((dictGet specifiche tipo).getD []) = Except.ok dich ∧
      analizza_pdf specifiche r tipo = Except.ok
        { formato_file := "PDF"
          numero_pagine := some r.pages.length
          dimensioni := some d
          profilo_stampa := some prof
          esito_pagine := some (decide ((r.pages.length : Int) = dich))
          esito_formato := some (verifica_formato d
            ((dictGet ((dictGet specifiche tipo).getD []) "formato").getD ""))
          esito_protezione := some true
          esito_font_incorporati := some (check_all_fonts_incorporati r)
          esito_pagine_singole := some sing
          esito_numerazione := some numz
          esito_stampa := some
            (if pyStrip (pyLower
                ((dictGet ((dictGet specifiche tipo).getD []) "stampa").getD ""))
                = "bianco e nero" then bw
             else if pyStrip (pyLower
                ((dictGet ((dictGet specifiche tipo).getD []) "stampa").getD ""))
                = "colori" then !bw
             else true) }) := by
  cases hg : geometry_step r tipo true with
  | error e =>
    left
    exact ⟨e, by simp [analizza_pdf, he, readerPages, Except.map, hg]⟩
  | ok tup =>
    obtain ⟨d, sing, numz, bw, prof⟩ := tup
    cases hdp : declared_pages ((dictGet specifiche tipo).getD []) with
    | error e =>
      left
      exact ⟨e, by simp [analizza_pdf, he, readerPages, Except.map, hg, hdp]⟩
    | ok dich =>
      right
      exact ⟨d, sing, numz, bw, prof, dich, rfl, rfl,
        by simp [analizza_pdf, he, readerPages, Except.map, hg, hdp]⟩

/-- C2 (amended): esito_formato compares the computed size label, which
carries a trailing " cm", with the declared format after normalizing
commas to dots; an empty declared format is vacuously true; the A4
interior against the declared "21,0x29,7 cm" yields true (while the
bare "21,0x29,7" of the original claim yields false). -/
theorem c2_formato_amended :
    (∀ a : String, verifica_formato a "" = true) ∧
    (∀ (specifiche : List (String × List (String × String))) (r : PdfReader)
        (tipo : String) (o : AnalysisOutcome),
        r.is_encrypted = false → analizza_pdf specifiche r tipo = Except.ok o →
        ∃ d, o.dimensioni = some d ∧
          o.esito_formato = some (verifica_formato d
            ((dictGet ((dictGet specifiche tipo).getD []) "formato").getD ""))) ∧
    (analizza_file [("impaginato", [("formato", "21,0x29,7 cm")])]
        { is_encrypted := false, pages := [a4Page "1"] }
        "impaginato").esito_formato = some true := by
  refine ⟨fun a => rfl, ?_, ?_⟩
  · intro specifiche r tipo o he h
    rcases analizza_pdf_cases specifiche r tipo he with ⟨e, herr⟩ |
      ⟨d, sing, numz, bw, prof, dich, hg, hdp, hok⟩
    · rw [herr] at h
      exact absurd h (by simp)
    · rw [hok] at h
      rw [Except.ok.injEq] at h
      subst h
      exact ⟨d, rfl, rfl⟩
  · simp only [analizza_file, analizza_pdf, Bool.not_false, if_true,
      geom_a4_1, readerPages, Except.map]
    decide

/-- Witness for C2 (amended) at the concrete A4 document and the
declared format "21,0x29,7 cm". -/
theorem c2_formato_amended_witness :
    verifica_formato "21,0x29,7 cm" "" = true ∧
    (∃ d, (analizza_file [("impaginato", [("formato", "21,0x29,7 cm")])]
          { is_encrypted := false, pages := [a4Page "1"] }
          "impaginato").dimensioni = some d ∧
      (analizza_file [("impaginato", [("formato", "21,0x29,7 cm")])]
          { is_encrypted := false, pages := [a4Page "1"] }
          "impaginato").esito_formato = some (verifica_formato d
        ((dictGet ((dictGet [("impaginato", [("formato", "21,0x29,7 cm")])]
          "impaginato").getD []) "formato").getD ""))) := by
  constructor
  · exact c2_formato_amended.1 "21,0x29,7 cm"
  · have hconc : analizza_pdf [("impaginato", [("formato", "21,0x29,7 cm")])]
        { is_encrypted := false, pages := [a4Page "1"] } "impaginato" =
        Except.ok
          { formato_file := "PDF"
            numero_pagine := some 1
            dimensioni := some "21,0x29,7 cm"
            profilo_stampa := some "Nessuna immagine"
            esito_pagine := some false
            esito_formato := some true
            esito_protezione := some true
            esito_font_incorporati := some true
            esito_pagine_singole := some true
            esito_numerazione := some true
            esito_stampa := some true } := by
      simp only [analizza_pdf, Bool.not_false, if_true, geom_a4_1,
        readerPages, Except.map]
      decide
    obtain ⟨d, h1, h2⟩ :=
      c2_formato_amended.2.1 [("impaginato", [("formato", "21,0x29,7 cm")])]
        { is_encrypted := false, pages := [a4Page "1"] } "impaginato" _ rfl hconc
    have hfile : analizza_file [("impaginato", [("formato", "21,0x29,7 cm")])]
        { is_encrypted := false, pages := [a4Page "1"] } "impaginato" =
        { formato_file := "PDF"
          numero_pagine := some 1
          dimensioni := some "21,0x29,7 cm"
          profilo_stampa := some "Nessuna immagine"
          esito_pagine := some false
          esito_formato := some true
          esito_protezione := some true
          esito_font_incorporati := some true
          esito_pagine_singole := some true
          esito_numerazione := some true
          esito_stampa := some true } := by
      simp only [analizza_file, hconc]
    rw [hfile]
    exact ⟨d, h1, h2⟩

/-- C5 (amended): a missing declared "pagine totali" is treated as the
integer default 0, so for an unencrypted document that analyzes
successfully the page comparison fails unless the document has 0 pages;
a present but unparsable declared value instead raises ValueError inside
`int(...)` and the whole analysis degrades to an error-kind outcome. -/
theorem c5_pagine_amended (specifiche : List (String × List (String × String)))
    (r : PdfReader) (tipo : String) (he : r.is_encrypted = false) :
    (∀ o, analizza_pdf specifiche r tipo = Except.ok o →
        dictGet ((dictGet specifiche tipo).getD []) "pagine totali" = none →
        o.esito_pagine = some (decide (r.pages.length = 0))) ∧
    (∀ s, dictGet ((dictGet specifiche tipo).getD []) "pagine totali" = some s →
        ∀ e, pyInt s = Except.error e →
          (analizza_file specifiche r tipo).esito = "Errore") := by
  constructor
  · intro o h hnone
    rcases analizza_pdf_cases specifiche r tipo he with ⟨e, herr⟩ |
      ⟨d, sing, numz, bw, prof, dich, hg, hdp, hok⟩
    · rw [herr] at h
      exact absurd h (by simp)
    · have hdp0 : declared_pages ((dictGet specifiche tipo).getD []) =
          Except.ok 0 := by
        simp [declared_pages, hnone]
      rw [hdp0] at hdp
      rw [Except.ok.injEq] at hdp
      subst hdp
      rw [hok] at h
      rw [Except.ok.injEq] at h
      subst h
      have hcast : (((r.pages.length : Int) = 0)) = (r.pages.length = 0) :=
        propext Int.natCast_eq_zero
      simp only [hcast]
  · intro s hs e he2
    rcases analizza_pdf_cases specifiche r tipo he with ⟨e2, herr⟩ |
      ⟨d, sing, numz, bw, prof, dich, hg, hdp, hok⟩
    · simp [analizza_file, herr]
    · exfalso
      have hdp2 : declared_pages ((dictGet specifiche tipo).getD []) =
          Except.error e := by
        simp [declared_pages, hs, he2]
      rw [hdp2] at hdp
      exact absurd hdp (by simp)

/-- Witness for C5 (amended): with no declared page count the A4 single
page yields esito_pagine false in a normal outcome, and the unparsable
"dieci" yields an error-kind outcome. -/
theorem c5_pagine_amended_witness :
    (analizza_file [] { is_encrypted := false, pages := [a4Page "1"] }
        "impaginato").esito_pagine = some false ∧
    (analizza_file [("impaginato", [("pagine totali", "dieci")])]
        { is_encrypted := false, pages := [a4Page "1"] }
        "impaginato").esito = "Errore" := by
  constructor
  · have hconc : analizza_pdf []
        { is_encrypted := false, pages := [a4Page "1"] } "impaginato" =
        Except.ok
          { formato_file := "PDF"
            numero_pagine := some 1
            dimensioni := some "21,0x29,7 cm"
            profilo_stampa := some "Nessuna immagine"
            esito_pagine := some false
            esito_formato := some true
            esito_protezione := some true
            esito_font_incorporati := some true
            esito_pagine_singole := some true
            esito_numerazione := some true
            esito_stampa := some true } := by
      simp only [analizza_pdf, Bool.not_false, if_true, geom_a4_1,
        readerPages, Except.map]
      decide
    have h := (c5_pagine_amended []
      { is_encrypted := false, pages := [a4Page "1"] } "impaginato" rfl).1
      _ hconc rfl
    have hfile : analizza_file []
        { is_encrypted := false, pages := [a4Page "1"] } "impaginato" =
        { formato_file := "PDF"
          numero_pagine := some 1
          dimensioni := some "21,0x29,7 cm"
          profilo_stampa := some "Nessuna immagine"
          esito_pagine := some false
          esito_formato := some true
          esito_protezione := some true
          esito_font_incorporati := some true
          esito_pagine_singole := some true
          esito_numerazione := some true
          esito_stampa := some true } := by
      simp only [analizza_file, hconc]
    exact (congrArg AnalysisOutcome.esito_pagine hfile).trans
      (h.trans (by decide))
  · exact (c5_pagine_amended [("impaginato", [("pagine totali", "dieci")])]
      { is_encrypted := false, pages := [a4Page "1"] } "impaginato" rfl).2
      "dieci" rfl "invalid literal for int() with base 10: dieci" rfl
